import Mathlib

/-
Shallow embedding of the client-side loan-application orchestration state
machine of CodeRed LoanOps (frontend/src/pages/Applications.jsx: the AppChat
component, and the KYCForm wizard component).  JavaScript strings are Lean
Strings; a JSON field that may be absent is an Option; the field
`risk_score` can be absent, null, or a number, so it is Option (Option Int).
React state setters become functional record updates; timestamps are
presentational and omitted.
-/

namespace LoanOps

/-- Sender of a chat message (the `sender` field of a message object). -/
inductive Sender
  | user
  | bot
deriving DecidableEq, Repr

/-- A chat message as appended to the `messages` state in Applications.jsx.
The `timestamp` field of the source is an opaque clock value and is omitted.
`isWarning` and `isOrchestrationStep` are absent-or-true flags in the source,
modelled as Bool with default false. -/
structure Message where
  sender : Sender
  text : String
  stage : Option String := none
  isWarning : Bool := false
  isOrchestrationStep : Bool := false
deriving DecidableEq, Repr

/-- The `riskAssessment` state object: `{ score, level, factors }` as built in
Applications.jsx from `data.risk_score`, `data.risk_level`,
`data.risk_factors || []`.  `level` is stored verbatim and may be undefined. -/
structure RiskAssessment where
  score : Int
  level : Option String
  factors : List String
deriving DecidableEq, Repr

/-- The `decisionInfo` state object: `{ type, reason, source, policy }` built
from the decision fields of a response. -/
structure DecisionInfo where
  type : String
  reason : Option String
  source : Option String
  policy : Option String
deriving DecidableEq, Repr

/-- The Decision Service chat response body as consumed by Applications.jsx.
Every field other than `reply` may be absent.  `risk_score` distinguishes
absent (`none`), JSON null (`some none`) and a number (`some (some v)`)
because the source tests it both with `!== undefined` and with
`!== null && !== undefined`.  `halt_agents` is tested for truthiness, so a
missing flag is `false`. -/
structure Response where
  reply : String
  stage : Option String := none
  application_status : Option String := none
  sanction_letter : Option String := none
  risk_score : Option (Option Int) := none
  risk_level : Option String := none
  risk_factors : Option (List String) := none
  decision_type : Option String := none
  decision_reason : Option String := none
  decision_source : Option String := none
  policy_applied : Option String := none
  halt_agents : Bool := false
deriving DecidableEq, Repr

/-- The state of the AppChat component: exactly the useState hooks of the
source that the orchestration core reads or writes (`inputText`,
`showEntryBanner` and the scroll ref are presentational and omitted). -/
structure ChatState where
  messages : List Message
  isLoading : Bool
  currentStage : String
  sanctionLetter : Option String
  applicationStatus : String
  riskAssessment : Option RiskAssessment
  decisionInfo : Option DecisionInfo
  isOrchestrating : Bool
  orchestrationStep : Option String
  pendingResponse : Option Response
  showKYCForm : Bool
deriving DecidableEq, Repr

/-- JavaScript truthiness of a possibly-absent string: present and non-empty. -/
def strTruthy : Option String → Bool
  | none => false
  | some t => t != ""

/-- JavaScript `a || b` where `a` is a possibly-absent string and `b` a
string: yields `b` when `a` is absent or empty. -/
def jsOrS : Option String → String → String
  | none, d => d
  | some t, d => if t = "" then d else t

/-- The initial AppChat state: the greeting message, `isLoading=false`,
`currentStage='sales'`, `applicationStatus='Initiated'`, everything else
null/false, per the useState initialisers in Applications.jsx. -/
def initMessage : Message :=
  { sender := Sender.bot
    text := "System initialized. Loan Operations Orchestrator is ready. Please provide borrower details to begin the application process."
    stage := some "sales" }

/-- Initial ChatState of a fresh session. -/
def initState : ChatState :=
  { messages := [initMessage]
    isLoading := false
    currentStage := "sales"
    sanctionLetter := none
    applicationStatus := "Initiated"
    riskAssessment := none
    decisionInfo := none
    isOrchestrating := false
    orchestrationStep := none
    pendingResponse := none
    showKYCForm := false }

/-- Update of `riskAssessment`: the source guards with
`data.risk_score !== null && data.risk_score !== undefined` and then stores
`{ score, level: data.risk_level, factors: data.risk_factors || [] }`. -/
def applyRisk (s : ChatState) (data : Response) : Option RiskAssessment :=
  match data.risk_score with
  | some (some v) => some { score := v, level := data.risk_level, factors := data.risk_factors.getD [] }
  | _ => s.riskAssessment

/-- Update of `decisionInfo`: the source guards with `if (data.decision_type)`
and stores the four decision fields verbatim. -/
def applyDecision (s : ChatState) (data : Response) : Option DecisionInfo :=
  if strTruthy data.decision_type then
    some { type := data.decision_type.getD ""
           reason := data.decision_reason
           source := data.decision_source
           policy := data.policy_applied }
  else s.decisionInfo

/-- The immediate branch of handleSendMessage ("Normal flow - display
immediately", Applications.jsx): append the reply message tagged with
`data.stage || currentStage`, conditionally apply stage, application status,
sanction letter, the KYC-form toggle on entering verification, risk fields
and decision fields, then drop the loading flag. -/
def immediateApply (s : ChatState) (data : Response) : ChatState :=
  { s with
    messages := s.messages ++
      [{ sender := Sender.bot, text := data.reply, stage := some (jsOrS data.stage s.currentStage) }]
    currentStage := if strTruthy data.stage then data.stage.getD "" else s.currentStage
    applicationStatus := if strTruthy data.application_status then data.application_status.getD "" else s.applicationStatus
    sanctionLetter := if strTruthy data.sanction_letter then data.sanction_letter else s.sanctionLetter
    showKYCForm := if data.stage == some "verification" && !s.showKYCForm then true else s.showKYCForm
    riskAssessment := applyRisk s data
    decisionInfo := applyDecision s data
    isLoading := false }

/-- The halt branch of handleSendMessage: one warning message carrying the
reply, stage frozen at verification, application status applied if present,
loading dropped, nothing else touched. -/
def chatHalt (s : ChatState) (data : Response) : ChatState :=
  { s with
    messages := s.messages ++
      [{ sender := Sender.bot, text := data.reply, stage := some "verification", isWarning := true }]
    currentStage := "verification"
    applicationStatus := if strTruthy data.application_status then data.application_status.getD "" else s.applicationStatus
    isLoading := false }

/-- The `shouldOrchestrate` test of handleSendMessage: response stage is
sanction or rejected, or is underwriting while the current stage (read before
any mutation) is verification. -/
def chatShouldOrchestrate (stage : Option String) (cur : String) : Bool :=
  stage == some "sanction" ||
  stage == some "rejected" ||
  (stage == some "underwriting" && cur == "verification")

/-- Processing of a parsed chat response body in handleSendMessage: the halt
short-circuit first, then the orchestration hand-off
(`shouldOrchestrate && data.risk_score !== undefined`), else the immediate
branch. -/
def processChatData (s : ChatState) (data : Response) : ChatState :=
  if data.halt_agents then chatHalt s data
  else if chatShouldOrchestrate data.stage s.currentStage && data.risk_score.isSome then
    { s with pendingResponse := some data, isOrchestrating := true }
  else immediateApply s data

/-- Outcome of the fetch + `response.json()` pair: the promise rejects
(network unreachable), or a response arrives with some HTTP status and either
a parseable JSON body or a body on which `json()` throws.  The source never
reads the status. -/
inductive FetchOutcome
  | netError
  | httpResponse (status : Nat) (body : Option Response)
deriving DecidableEq, Repr

/-- Fixed error text of the catch branch of handleSendMessage. -/
def errorText : String :=
  "System Error: Orchestrator connection failed. Please verify the backend service is running."

/-- The catch branch of handleSendMessage: one fixed-text bot message tagged
with the current stage, loading dropped. -/
def catchBranch (s : ChatState) : ChatState :=
  { s with
    messages := s.messages ++ [{ sender := Sender.bot, text := errorText, stage := some s.currentStage }]
    isLoading := false }

/-- JavaScript `String.prototype.trim`: drop leading and trailing whitespace,
written structurally over the character list. -/
def jsTrim (s : String) : String :=
  String.mk (((s.data.dropWhile Char.isWhitespace).reverse.dropWhile Char.isWhitespace).reverse)

/-- The user message appended by handleSendMessage before the request. -/
def userMsg (text : String) : Message :=
  { sender := Sender.user, text := text }

/-- handleSendMessage: no-op on whitespace-only input; otherwise append the
user message, raise the loading flag, and dispatch on the transport outcome.
A rejected fetch or a body that fails JSON parsing reaches the catch branch;
any parsed body is processed regardless of HTTP status. -/
def handleSendMessage (s : ChatState) (input : String) (outcome : FetchOutcome) : ChatState :=
  if jsTrim input == "" then s
  else
    let s1 : ChatState := { s with messages := s.messages ++ [userMsg input], isLoading := true }
    match outcome with
    | FetchOutcome.netError => catchBranch s1
    | FetchOutcome.httpResponse _ none => catchBranch s1
    | FetchOutcome.httpResponse _ (some data) => processChatData s1 data

/-- The halt branch of the KYCForm onComplete handler: one warning message,
stage frozen at verification, loading dropped.  Unlike the chat halt branch
it does not touch the application status. -/
def kycHalt (s : ChatState) (result : Response) : ChatState :=
  { s with
    messages := s.messages ++
      [{ sender := Sender.bot, text := result.reply, stage := some "verification", isWarning := true }]
    currentStage := "verification"
    isLoading := false }

/-- The `shouldOrchestrate` test of the KYCForm onComplete handler: stage is
sanction or rejected, or `risk_score !== undefined`. -/
def kycShouldOrchestrate (result : Response) : Bool :=
  result.stage == some "sanction" ||
  result.stage == some "rejected" ||
  result.risk_score.isSome

/-- Processing of the parsed chat response in the KYCForm onComplete handler:
halt short-circuit, then stage/status application, then the orchestration
hand-off (`shouldOrchestrate && result.risk_score !== undefined`), else an
immediate reply message tagged with the raw `result.stage`. -/
def kycProcessResult (s : ChatState) (result : Response) : ChatState :=
  if result.halt_agents then kycHalt s result
  else
    let s1 : ChatState :=
      { s with
        currentStage := if strTruthy result.stage then result.stage.getD "" else s.currentStage
        applicationStatus := if strTruthy result.application_status then result.application_status.getD "" else s.applicationStatus }
    if kycShouldOrchestrate result && result.risk_score.isSome then
      { s1 with pendingResponse := some result, isOrchestrating := true }
    else
      { s1 with
        messages := s1.messages ++
          [{ sender := Sender.bot, text := result.reply, stage := result.stage }]
        isLoading := false }

/-- The fixed per-agent playback texts (the `orchestrationMessages` map). -/
def orchMessageText (step : String) : String :=
  if step == "credit" then "Analyzing identity documents and credit history..."
  else if step == "risk" then "Evaluating eligibility against policy rules..."
  else "Generating final sanction decision..."

/-- The stage indicator value set for a playback step (the nested ternary in
runOrchestration), equal to the step name for the three script steps. -/
def orchStepStage (step : String) : String :=
  if step == "credit" then "credit"
  else if step == "risk" then "risk"
  else "sanction"

/-- The synthetic bot message appended for a playback step, tagged
`isOrchestrationStep` and carrying the step name as its stage. -/
def orchMsg (step : String) : Message :=
  { sender := Sender.bot
    text := orchMessageText step
    stage := some step
    isOrchestrationStep := true }

/-- One iteration of the `for (const step of steps)` loop of runOrchestration:
set the step indicator and stage indicator, append the synthetic message.
The randomized suspension that follows mutates no state. -/
def orchStepApply (s : ChatState) (step : String) : ChatState :=
  { s with
    orchestrationStep := some step
    currentStage := orchStepStage step
    messages := s.messages ++ [orchMsg step] }

/-- The final reply message appended by runOrchestration, tagged with
`data.stage || 'sanction'`. -/
def orchReplyMsg (data : Response) : Message :=
  { sender := Sender.bot, text := data.reply, stage := some (jsOrS data.stage "sanction") }

/-- The tail of runOrchestration after the three steps: append the real reply,
conditionally apply stage, status, sanction letter, risk and decision fields,
then clear the playback state and the loading flag. -/
def orchFinalApply (s : ChatState) (data : Response) : ChatState :=
  { s with
    messages := s.messages ++ [orchReplyMsg data]
    currentStage := if strTruthy data.stage then data.stage.getD "" else s.currentStage
    applicationStatus := if strTruthy data.application_status then data.application_status.getD "" else s.applicationStatus
    sanctionLetter := if strTruthy data.sanction_letter then data.sanction_letter else s.sanctionLetter
    riskAssessment := applyRisk s data
    decisionInfo := applyDecision s data
    orchestrationStep := none
    isOrchestrating := false
    pendingResponse := none
    isLoading := false }

/-- The fixed playback script. -/
def orchSteps : List String := ["credit", "risk", "sanction"]

/-- The whole runOrchestration body: the three scripted steps in order, then
the final application of the captured response. -/
def runOrchestration (s : ChatState) (data : Response) : ChatState :=
  orchFinalApply (orchSteps.foldl orchStepApply s) data

/-- The delay computed after each playback step, `900 + Math.random() * 300`,
as a function of the value r returned by the random source. -/
def orchestrationDelay (r : ℚ) : ℚ := 900 + r * 300

/-- Personal-details record of the KYC wizard (step 1 fields). -/
structure PersonalDetails where
  fullName : String := ""
  dateOfBirth : String := ""
  mobileNumber : String := ""
  email : String := ""
deriving DecidableEq, Repr

/-- Identity-details record of the KYC wizard (step 2 fields). -/
structure IdentityDetails where
  panNumber : String := ""
  aadhaarLast4 : String := ""
  city : String := ""
  state : String := ""
  pincode : String := ""
deriving DecidableEq, Repr

/-- Employment-details record of the KYC wizard (step 3 fields). -/
structure EmploymentDetails where
  employmentType : String := "Salaried"
  monthlyIncome : String := ""
  employerName : String := ""
deriving DecidableEq, Repr

/-- The navigation-relevant state of the KYC wizard. -/
structure KYCWizardState where
  personalDetails : PersonalDetails
  identityDetails : IdentityDetails
  employmentDetails : EmploymentDetails
  currentStep : Nat
deriving DecidableEq, Repr

/-- canProceedFromStep of the KYCForm component: the switch over the step
number, with JavaScript truthiness of the string fields (non-empty). -/
def canProceedFromStep (step : Nat) (p : PersonalDetails) (i : IdentityDetails) (e : EmploymentDetails) : Bool :=
  if step == 1 then (p.fullName != "") && (p.mobileNumber != "")
  else if step == 2 then (i.panNumber != "") || (i.aadhaarLast4 != "")
  else if step == 3 then e.monthlyIncome != ""
  else if step == 4 then true
  else false

/-- The Continue action of the wizard: rendered only while `currentStep < 4`
and disabled unless `canProceedFromStep(currentStep)`, it increments the
step; otherwise the state is unchanged. -/
def continueStep (w : KYCWizardState) : KYCWizardState :=
  if decide (w.currentStep < 4) &&
      canProceedFromStep w.currentStep w.personalDetails w.identityDetails w.employmentDetails then
    { w with currentStep := w.currentStep + 1 }
  else w

/-- Modelled from the spec (section 4.2): the orchestration-eligibility
predicate exactly as the specification words it, for comparison with the
predicates implemented in the source: risk_score present AND (stage sanction
OR rejected OR (underwriting AND the pre-mutation stage was verification)). -/
def specOrchestrationEligible (priorStage : String) (data : Response) : Bool :=
  data.risk_score.isSome &&
  (data.stage == some "sanction" ||
   data.stage == some "rejected" ||
   (data.stage == some "underwriting" && priorStage == "verification"))

/-- Helper: the guarded stage update of the source (`if (data.stage)
setCurrentStage(data.stage)`) computes JavaScript `data.stage || cur`. -/
theorem ite_truthy_eq_jsOrS (o : Option String) (d : String) :
    (if strTruthy o then o.getD "" else d) = jsOrS o d := by
  cases o with
  | none => simp [strTruthy, jsOrS]
  | some t =>
      by_cases h : t = "" <;> simp [strTruthy, jsOrS, h]

/-- Helper: the chat-path orchestration condition equals the predicate worded
by the specification. -/
theorem chat_cond_eq_spec (cur : String) (data : Response) :
    (chatShouldOrchestrate data.stage cur && data.risk_score.isSome) =
      specOrchestrationEligible cur data := by
  simp [chatShouldOrchestrate, specOrchestrationEligible, Bool.and_comm]

/-- Helper: the wizard-path orchestration condition collapses to the presence
of risk_score. -/
theorem kyc_cond_eq (data : Response) :
    (kycShouldOrchestrate data && data.risk_score.isSome) = data.risk_score.isSome := by
  cases h : data.risk_score.isSome <;> simp [kycShouldOrchestrate, h]

/-- Helper: last element of a log after appending one message. -/
theorem getLast_append_one {α : Type} (l : List α) (a : α) :
    (l ++ [a]).getLast? = some a := by
  simp

/-- A mid-conversation state at the verification boundary with a request in
flight, used as a concrete input below. -/
def chatCxBase : ChatState :=
  { initState with currentStage := "verification", isLoading := true }

/-- A response carrying a risk score but a stage outside every boundary of
the specification's eligibility predicate. -/
def riskOnlyResponse : Response :=
  { reply := "ok", stage := some "sales", risk_score := some (some 50) }

/-- A halt response that also carries an application status. -/
def haltStatusResponse : Response :=
  { reply := "denied", application_status := some "PendingReview", halt_agents := true }

/-- A halt response that also carries risk, sanction and decision fields. -/
def haltLoadedResponse : Response :=
  { reply := "stop", halt_agents := true, risk_score := some (some 80)
    risk_level := some "High", sanction_letter := some "SL-1"
    decision_type := some "AUTOMATED" }

/-- An orchestration-reachable response with no stage field. -/
def noStageResponse : Response :=
  { reply := "ok", risk_score := some (some 72) }

/-- A fully loaded sanction response. -/
def sanctionResponse : Response :=
  { reply := "approved", stage := some "sanction", risk_score := some (some 20)
    risk_level := some "Low", sanction_letter := some "SL-9"
    decision_type := some "AUTOMATED" }

/-- A response with only a reply. -/
def bareResponse : Response := { reply := "hello" }

/-- A non-2xx JSON body as a backend might send it. -/
def serverErrorBody : Response := { reply := "Internal Server Error" }

/-- A response advancing to underwriting without risk data. -/
def uwResponse : Response := { reply := "a", stage := some "underwriting" }

/-- A response moving the stage back to sales. -/
def backResponse : Response := { reply := "b", stage := some "sales" }

/-- Claim C9: during orchestration playback the computed suspension delay
`900 + r * 300` lies in the half-open interval [900, 1200) milliseconds for
every random-source value r in [0, 1). -/
theorem orchestration_delay_range (r : ℚ) (h0 : 0 ≤ r) (h1 : r < 1) :
    900 ≤ orchestrationDelay r ∧ orchestrationDelay r < 1200 := by
  unfold orchestrationDelay
  constructor
  · nlinarith
  · nlinarith

/-- Witness for C9 at r = 1/2. -/
theorem orchestration_delay_range_witness :
    900 ≤ orchestrationDelay (1 / 2) ∧ orchestrationDelay (1 / 2) < 1200 :=
  orchestration_delay_range (1 / 2) (by norm_num) (by norm_num)

/-- Claim C7: the wizard advancement predicates are exactly as stated —
Personal iff full name and mobile number are non-empty, Identity iff PAN or
Aadhaar-last-4 is non-empty, Employment iff monthly income is non-empty,
Documents always — and the Continue action is blocked unless the current
step's predicate holds, and advances one step when it holds. -/
theorem wizard_step_gating (w : KYCWizardState) :
    (canProceedFromStep 1 w.personalDetails w.identityDetails w.employmentDetails = true ↔
      (w.personalDetails.fullName ≠ "" ∧ w.personalDetails.mobileNumber ≠ "")) ∧
    (canProceedFromStep 2 w.personalDetails w.identityDetails w.employmentDetails = true ↔
      (w.identityDetails.panNumber ≠ "" ∨ w.identityDetails.aadhaarLast4 ≠ "")) ∧
    (canProceedFromStep 3 w.personalDetails w.identityDetails w.employmentDetails = true ↔
      w.employmentDetails.monthlyIncome ≠ "") ∧
    (canProceedFromStep 4 w.personalDetails w.identityDetails w.employmentDetails = true) ∧
    (canProceedFromStep w.currentStep w.personalDetails w.identityDetails w.employmentDetails = false →
      continueStep w = w) ∧
    (w.currentStep < 4 →
      canProceedFromStep w.currentStep w.personalDetails w.identityDetails w.employmentDetails = true →
      (continueStep w).currentStep = w.currentStep + 1) := by
  refine ⟨by simp [canProceedFromStep], by simp [canProceedFromStep],
    by simp [canProceedFromStep], by simp [canProceedFromStep], ?_, ?_⟩
  · intro h
    simp [continueStep, h]
  · intro h1 h2
    simp [continueStep, h1, h2]

/-- A wizard on step 1 with an empty full name. -/
def wizardBlockedState : KYCWizardState :=
  { personalDetails := { mobileNumber := "9999999999" }
    identityDetails := {}
    employmentDetails := {}
    currentStep := 1 }

/-- A wizard on step 1 with the spec's example field values. -/
def wizardReadyState : KYCWizardState :=
  { personalDetails := { fullName := "A", mobileNumber := "9999999999" }
    identityDetails := {}
    employmentDetails := {}
    currentStep := 1 }

/-- Witness for C7: empty full name blocks step 1; the spec's example values
advance to step 2. -/
theorem wizard_step_gating_witness :
    continueStep wizardBlockedState = wizardBlockedState ∧
    (continueStep wizardReadyState).currentStep = 2 :=
  ⟨(wizard_step_gating wizardBlockedState).2.2.2.2.1 rfl,
   (wizard_step_gating wizardReadyState).2.2.2.2.2 (by decide) rfl⟩

/-- Counterexample to claim C1: in the wizard's post-verification chat call, a
response whose stage is `sales` (outside every boundary of the claimed
predicate) but which carries a risk score is nevertheless handed to the
Orchestration Playback Sequencer. -/
theorem kyc_orchestrates_without_stage_boundary :
    (kycProcessResult chatCxBase riskOnlyResponse).isOrchestrating = true ∧
    (kycProcessResult chatCxBase riskOnlyResponse).pendingResponse = some riskOnlyResponse ∧
    specOrchestrationEligible chatCxBase.currentStage riskOnlyResponse = false :=
  ⟨rfl, rfl, rfl⟩

/-- Claim C1 as amended: in handleSendMessage the hand-off to the Sequencer
happens exactly when the specification's predicate holds of the pre-mutation
stage; in the wizard's post-verification chat call the hand-off happens
exactly when risk_score is present, regardless of the response's stage. -/
theorem orchestration_handoff_rule (s : ChatState) (data : Response)
    (h : data.halt_agents = false) :
    ((processChatData s data).pendingResponse =
      if specOrchestrationEligible s.currentStage data then some data else s.pendingResponse) ∧
    ((processChatData s data).isOrchestrating =
      if specOrchestrationEligible s.currentStage data then true else s.isOrchestrating) ∧
    ((kycProcessResult s data).pendingResponse =
      if data.risk_score.isSome then some data else s.pendingResponse) ∧
    ((kycProcessResult s data).isOrchestrating =
      if data.risk_score.isSome then true else s.isOrchestrating) := by
  have hc := chat_cond_eq_spec s.currentStage data
  have hk := kyc_cond_eq data
  unfold processChatData kycProcessResult
  rw [hc, hk]
  cases hb : specOrchestrationEligible s.currentStage data <;>
    cases hr : data.risk_score.isSome <;>
      simp [h, hb, hr, immediateApply]

/-- Witness for C1 (amended) on a sanction response at the verification
boundary. -/
theorem orchestration_handoff_rule_witness :
    (processChatData chatCxBase sanctionResponse).pendingResponse =
      if specOrchestrationEligible chatCxBase.currentStage sanctionResponse then
        some sanctionResponse
      else chatCxBase.pendingResponse :=
  (orchestration_handoff_rule chatCxBase sanctionResponse rfl).1

/-- Counterexample to claim C2: the wizard's halt branch does not apply a
present application_status — processing the halted response
`{reply: denied, application_status: PendingReview, halt_agents: true}`
leaves the application status at its prior value. -/
theorem kyc_halt_ignores_application_status :
    haltStatusResponse.halt_agents = true ∧
    haltStatusResponse.application_status = some "PendingReview" ∧
    (kycProcessResult initState haltStatusResponse).applicationStatus = "Initiated" ∧
    ("Initiated" : String) ≠ "PendingReview" :=
  ⟨rfl, rfl, rfl, by decide⟩

/-- Claim C2 as amended: on a halt_agents response, both paths append exactly
one warning bot message carrying the reply, force the stage to verification,
end with the loading flag down and never reach the orchestration hand-off;
handleSendMessage applies a present application_status while the wizard's
path leaves it unchanged.  The code keeps no separate halted flag — the halt
is realised entirely by these effects. -/
theorem halt_response_processing (s : ChatState) (data : Response)
    (h : data.halt_agents = true) :
    (processChatData s data).messages = s.messages ++
      [{ sender := Sender.bot, text := data.reply, stage := some "verification", isWarning := true }] ∧
    (processChatData s data).currentStage = "verification" ∧
    (processChatData s data).applicationStatus =
      (if strTruthy data.application_status then data.application_status.getD ""
       else s.applicationStatus) ∧
    (processChatData s data).isLoading = false ∧
    (processChatData s data).pendingResponse = s.pendingResponse ∧
    (processChatData s data).isOrchestrating = s.isOrchestrating ∧
    (kycProcessResult s data).messages = s.messages ++
      [{ sender := Sender.bot, text := data.reply, stage := some "verification", isWarning := true }] ∧
    (kycProcessResult s data).currentStage = "verification" ∧
    (kycProcessResult s data).applicationStatus = s.applicationStatus ∧
    (kycProcessResult s data).isLoading = false ∧
    (kycProcessResult s data).pendingResponse = s.pendingResponse ∧
    (kycProcessResult s data).isOrchestrating = s.isOrchestrating := by
  simp [processChatData, kycProcessResult, chatHalt, kycHalt, h]

/-- Witness for C2 (amended) on a halted response carrying a status. -/
theorem halt_response_processing_witness :
    (processChatData initState haltStatusResponse).currentStage = "verification" ∧
    (processChatData initState haltStatusResponse).isLoading = false :=
  ⟨(halt_response_processing initState haltStatusResponse rfl).2.1,
   (halt_response_processing initState haltStatusResponse rfl).2.2.2.1⟩

/-- Claim C10: both halt branches leave the risk assessment, the sanction
artifact id, the decision info and the KYC-form visibility untouched, even
when the halted response carries risk, sanction or decision fields. -/
theorem halt_preserves_decision_artifacts (s : ChatState) (data : Response)
    (h : data.halt_agents = true) :
    (processChatData s data).riskAssessment = s.riskAssessment ∧
    (processChatData s data).sanctionLetter = s.sanctionLetter ∧
    (processChatData s data).decisionInfo = s.decisionInfo ∧
    (processChatData s data).showKYCForm = s.showKYCForm ∧
    (kycProcessResult s data).riskAssessment = s.riskAssessment ∧
    (kycProcessResult s data).sanctionLetter = s.sanctionLetter ∧
    (kycProcessResult s data).decisionInfo = s.decisionInfo ∧
    (kycProcessResult s data).showKYCForm = s.showKYCForm := by
  simp [processChatData, kycProcessResult, chatHalt, kycHalt, h]

/-- Witness for C10 on a halted response that carries risk, sanction and
decision fields. -/
theorem halt_preserves_decision_artifacts_witness :
    (processChatData initState haltLoadedResponse).riskAssessment = initState.riskAssessment ∧
    (processChatData initState haltLoadedResponse).sanctionLetter = initState.sanctionLetter ∧
    (kycProcessResult initState haltLoadedResponse).decisionInfo = initState.decisionInfo :=
  ⟨(halt_preserves_decision_artifacts initState haltLoadedResponse rfl).1,
   (halt_preserves_decision_artifacts initState haltLoadedResponse rfl).2.1,
   (halt_preserves_decision_artifacts initState haltLoadedResponse rfl).2.2.2.2.2.2.1⟩

/-- Counterexample to claim C6: a non-2xx response whose body is valid JSON is
not turned into the fixed-text error message — the body is processed as a
normal response (the HTTP status is never examined), so the log gains a bot
message with the body's reply text instead. -/
theorem non_2xx_json_body_processed_normally :
    (handleSendMessage initState "hello" (FetchOutcome.httpResponse 500 (some serverErrorBody))).messages =
      initState.messages ++
        [userMsg "hello",
         { sender := Sender.bot, text := "Internal Server Error", stage := some "sales" }] ∧
    ("Internal Server Error" : String) ≠ errorText :=
  ⟨rfl, by decide⟩

/-- Claim C6 as amended: when the transport throws — the fetch promise rejects
(network unreachable) or the body fails JSON parsing — the log gains exactly
one fixed-text bot message after the user message, the loading flag ends
down, and every other piece of state is unchanged; no retry is issued.  A
non-2xx response with a parseable JSON body does not take this path. -/
theorem transport_throw_recovery (s : ChatState) (input : String)
    (h : jsTrim input ≠ "") (outcome : FetchOutcome)
    (ho : outcome = FetchOutcome.netError ∨
      ∃ st, outcome = FetchOutcome.httpResponse st none) :
    (handleSendMessage s input outcome).messages = s.messages ++
      [userMsg input, { sender := Sender.bot, text := errorText, stage := some s.currentStage }] ∧
    (handleSendMessage s input outcome).isLoading = false ∧
    (handleSendMessage s input outcome).currentStage = s.currentStage ∧
    (handleSendMessage s input outcome).sanctionLetter = s.sanctionLetter ∧
    (handleSendMessage s input outcome).applicationStatus = s.applicationStatus ∧
    (handleSendMessage s input outcome).riskAssessment = s.riskAssessment ∧
    (handleSendMessage s input outcome).decisionInfo = s.decisionInfo ∧
    (handleSendMessage s input outcome).pendingResponse = s.pendingResponse ∧
    (handleSendMessage s input outcome).isOrchestrating = s.isOrchestrating := by
  have ht : (jsTrim input == "") = false := beq_eq_false_iff_ne.mpr h
  rcases ho with rfl | ⟨st, rfl⟩ <;>
    simp [handleSendMessage, catchBranch, userMsg, ht]

/-- Witness for C6 (amended) on a rejected fetch. -/
theorem transport_throw_recovery_witness :
    (handleSendMessage initState "hi" FetchOutcome.netError).isLoading = false ∧
    (handleSendMessage initState "hi" FetchOutcome.netError).currentStage =
      initState.currentStage :=
  ⟨(transport_throw_recovery initState "hi" (by decide) FetchOutcome.netError (Or.inl rfl)).2.1,
   (transport_throw_recovery initState "hi" (by decide) FetchOutcome.netError (Or.inl rfl)).2.2.1⟩

/-- Counterexample to claim C8: a reachable non-halted sequence moves the
stage backward — a response with stage `underwriting` followed by a
non-halted, non-rejected response with stage `sales` drops the stage from
underwriting back to sales. -/
theorem stage_moves_backward :
    (handleSendMessage initState "go"
      (FetchOutcome.httpResponse 200 (some uwResponse))).currentStage = "underwriting" ∧
    (handleSendMessage
      (handleSendMessage initState "go" (FetchOutcome.httpResponse 200 (some uwResponse)))
      "more" (FetchOutcome.httpResponse 200 (some backResponse))).currentStage = "sales" ∧
    backResponse.halt_agents = false ∧
    backResponse.stage ≠ some "rejected" :=
  ⟨rfl, rfl, rfl, by decide⟩

/-- Claim C8 as amended: the client enforces no stage ordering at all — after
processing a chat response the stage is `verification` on halt, unchanged
while a response is handed to the Sequencer, and otherwise exactly the
server-supplied stage (the prior stage when the field is absent or empty);
monotonicity therefore holds only if the server's stages are themselves
non-decreasing. -/
theorem stage_follows_server (s : ChatState) (data : Response) :
    (processChatData s data).currentStage =
      if data.halt_agents then "verification"
      else if chatShouldOrchestrate data.stage s.currentStage && data.risk_score.isSome then
        s.currentStage
      else jsOrS data.stage s.currentStage := by
  unfold processChatData chatHalt immediateApply
  cases h1 : data.halt_agents with
  | true => simp [h1]
  | false =>
      cases h2 : chatShouldOrchestrate data.stage s.currentStage && data.risk_score.isSome with
      | true => simp [h1, h2]
      | false => simp [h1, h2, ite_truthy_eq_jsOrS]

/-- Counterexample to claim C3: the claimed no-interleaving guarantee fails
because the chat input is not gated on the loading flag — handleSendMessage
guards only against whitespace-only input, so it runs even while
`isLoading = true`.  During the awaited delay after the credit step the event
loop can therefore run a submit (here one whose transport rejects before the
next step fires): its user message and error message land in the log strictly
between the credit and risk synthetic messages, so the log does not contain
the three synthetic messages immediately followed by the reply with nothing
interleaved. -/
theorem playback_interleaved_by_ungated_submit :
    (orchStepApply chatCxBase "credit").isLoading = true ∧
    (handleSendMessage (orchStepApply chatCxBase "credit") "hello" FetchOutcome.netError).messages =
      chatCxBase.messages ++
        [orchMsg "credit", userMsg "hello",
         { sender := Sender.bot, text := errorText, stage := some "credit" }] ∧
    (orchStepApply
        (handleSendMessage (orchStepApply chatCxBase "credit") "hello" FetchOutcome.netError)
        "risk").messages =
      chatCxBase.messages ++
        [orchMsg "credit", userMsg "hello",
         { sender := Sender.bot, text := errorText, stage := some "credit" },
         orchMsg "risk"] :=
  ⟨rfl, rfl, rfl⟩

/-- Claim C3 as amended: the Sequencer's own execution appends, in script
order, the credit, risk and sanction synthetic messages immediately followed
by the real reply with the loading flag up at every state it produces until
the final application; but because the input is not gated on the loading
flag, a submit handled during one of the awaited delays appends its messages
between the synthetic steps, so the no-interleaving guarantee holds only in
the absence of user submits during playback.  The theorem below proves the
Sequencer's side of this: once playback starts from a state with the loading
flag up, the
log grows by exactly the credit, risk and sanction synthetic messages in
script order — each tagged isOrchestrationStep with its fixed text —
immediately followed by the real reply message and nothing else, and the
loading flag stays up at every intermediate state, dropping only with the
final application. -/
theorem orchestration_playback_ordering (s : ChatState) (data : Response)
    (h : s.isLoading = true) :
    runOrchestration s data =
      orchFinalApply (orchStepApply (orchStepApply (orchStepApply s "credit") "risk") "sanction") data ∧
    (orchStepApply s "credit").messages = s.messages ++ [orchMsg "credit"] ∧
    (orchStepApply (orchStepApply s "credit") "risk").messages =
      s.messages ++ [orchMsg "credit", orchMsg "risk"] ∧
    (orchStepApply (orchStepApply (orchStepApply s "credit") "risk") "sanction").messages =
      s.messages ++ [orchMsg "credit", orchMsg "risk", orchMsg "sanction"] ∧
    (runOrchestration s data).messages =
      s.messages ++ [orchMsg "credit", orchMsg "risk", orchMsg "sanction", orchReplyMsg data] ∧
    (orchMsg "credit").isOrchestrationStep = true ∧
    (orchMsg "risk").isOrchestrationStep = true ∧
    (orchMsg "sanction").isOrchestrationStep = true ∧
    (orchReplyMsg data).isOrchestrationStep = false ∧
    (orchReplyMsg data).text = data.reply ∧
    (orchStepApply s "credit").isLoading = true ∧
    (orchStepApply (orchStepApply s "credit") "risk").isLoading = true ∧
    (orchStepApply (orchStepApply (orchStepApply s "credit") "risk") "sanction").isLoading = true ∧
    (runOrchestration s data).isLoading = false := by
  refine ⟨rfl, ?_⟩
  simp [runOrchestration, orchSteps, orchStepApply, orchFinalApply, orchMsg,
    orchReplyMsg, h]

/-- Witness for C3 from the verification-boundary state with a request in
flight. -/
theorem orchestration_playback_ordering_witness :
    (runOrchestration chatCxBase riskOnlyResponse).messages =
      chatCxBase.messages ++
        [orchMsg "credit", orchMsg "risk", orchMsg "sanction", orchReplyMsg riskOnlyResponse] :=
  (orchestration_playback_ordering chatCxBase riskOnlyResponse rfl).2.2.2.2.1

/-- Counterexample to claim C4: on a captured response with no stage field
(reachable through the wizard path, which orchestrates on any response with a
risk score) the Sequencer's final application and the Immediate path diverge —
playback leaves the stage at `sanction` while the Immediate path keeps the
prior stage `verification`. -/
theorem orchestration_final_differs_on_absent_stage :
    noStageResponse.stage = none ∧
    chatCxBase.currentStage = "verification" ∧
    (runOrchestration chatCxBase noStageResponse).currentStage = "sanction" ∧
    (immediateApply chatCxBase noStageResponse).currentStage = "verification" ∧
    (runOrchestration chatCxBase noStageResponse).currentStage ≠
      (immediateApply chatCxBase noStageResponse).currentStage :=
  ⟨rfl, rfl, rfl, rfl, by decide⟩

/-- Claim C4 as amended: whenever the captured response carries a non-empty
stage field — always the case for responses made eligible by
handleSendMessage — the Sequencer's post-playback application agrees with the
Immediate path on the stage, application status, sanction artifact id, risk
assessment, decision info and the appended reply message, and both end with
the loading flag down; when the stage field is absent the two paths diverge
as the counterexample shows. -/
theorem orchestration_final_refines_immediate (s : ChatState) (data : Response)
    (h : strTruthy data.stage = true) :
    (runOrchestration s data).currentStage = (immediateApply s data).currentStage ∧
    (runOrchestration s data).applicationStatus = (immediateApply s data).applicationStatus ∧
    (runOrchestration s data).sanctionLetter = (immediateApply s data).sanctionLetter ∧
    (runOrchestration s data).riskAssessment = (immediateApply s data).riskAssessment ∧
    (runOrchestration s data).decisionInfo = (immediateApply s data).decisionInfo ∧
    (runOrchestration s data).messages.getLast? = (immediateApply s data).messages.getLast? ∧
    (runOrchestration s data).isLoading = false ∧
    (immediateApply s data).isLoading = false := by
  obtain ⟨t, ht, hne⟩ : ∃ t, data.stage = some t ∧ t ≠ "" := by
    cases hs : data.stage with
    | none => rw [hs] at h; simp [strTruthy] at h
    | some t =>
        rw [hs] at h
        exact ⟨t, rfl, by simpa [strTruthy] using h⟩
  refine ⟨?_, ?_, ?_, ?_, ?_, ?_, ?_, ?_⟩
  · simp [runOrchestration, orchSteps, orchStepApply, orchFinalApply,
      immediateApply, strTruthy, ht, hne]
  · simp [runOrchestration, orchSteps, orchStepApply, orchFinalApply, immediateApply]
  · simp [runOrchestration, orchSteps, orchStepApply, orchFinalApply, immediateApply]
  · cases hrs : data.risk_score with
    | none =>
        simp [runOrchestration, orchSteps, orchStepApply, orchFinalApply,
          immediateApply, applyRisk, hrs]
    | some o =>
        cases o <;>
          simp [runOrchestration, orchSteps, orchStepApply, orchFinalApply,
            immediateApply, applyRisk, hrs]
  · simp [runOrchestration, orchSteps, orchStepApply, orchFinalApply,
      immediateApply, applyDecision]
  · rw [show (runOrchestration s data).messages =
        (orchStepApply (orchStepApply (orchStepApply s "credit") "risk") "sanction").messages
          ++ [orchReplyMsg data] from rfl]
    rw [show (immediateApply s data).messages = s.messages ++
        [{ sender := Sender.bot, text := data.reply
           stage := some (jsOrS data.stage s.currentStage) }] from rfl]
    rw [getLast_append_one, getLast_append_one]
    simp [orchReplyMsg, jsOrS, ht, hne]
  · simp [runOrchestration, orchSteps, orchStepApply, orchFinalApply]
  · simp [immediateApply]

/-- Witness for C4 (amended) on a full sanction response. -/
theorem orchestration_final_refines_immediate_witness :
    (runOrchestration chatCxBase sanctionResponse).currentStage =
      (immediateApply chatCxBase sanctionResponse).currentStage ∧
    (runOrchestration chatCxBase sanctionResponse).riskAssessment =
      (immediateApply chatCxBase sanctionResponse).riskAssessment :=
  ⟨(orchestration_final_refines_immediate chatCxBase sanctionResponse rfl).1,
   (orchestration_final_refines_immediate chatCxBase sanctionResponse rfl).2.2.2.1⟩

/-- Counterexample to claim C5: processing a response with an absent stage
field through orchestration playback does change the stage — it is left at
`sanction`, the last playback indicator value, instead of the prior
`verification`. -/
theorem absent_stage_not_preserved_by_playback :
    noStageResponse.stage = none ∧
    chatCxBase.currentStage = "verification" ∧
    (runOrchestration chatCxBase noStageResponse).currentStage = "sanction" ∧
    (runOrchestration chatCxBase noStageResponse).currentStage ≠ chatCxBase.currentStage :=
  ⟨rfl, rfl, rfl, by decide⟩

/-- Claim C5 as amended: on the Immediate path every absent optional field
leaves its piece of state unchanged (stage, application status, sanction
artifact, risk assessment, decision info); on the orchestration path the same
holds for application status, sanction artifact, risk assessment and decision
info, but an absent stage field leaves the stage at the playback's final
indicator value `sanction` rather than the pre-playback stage. -/
theorem absent_fields_preserved (s : ChatState) (data : Response) :
    (data.stage = none → (immediateApply s data).currentStage = s.currentStage) ∧
    (data.application_status = none →
      (immediateApply s data).applicationStatus = s.applicationStatus ∧
      (runOrchestration s data).applicationStatus = s.applicationStatus) ∧
    (data.sanction_letter = none →
      (immediateApply s data).sanctionLetter = s.sanctionLetter ∧
      (runOrchestration s data).sanctionLetter = s.sanctionLetter) ∧
    (data.risk_score = none →
      (immediateApply s data).riskAssessment = s.riskAssessment ∧
      (runOrchestration s data).riskAssessment = s.riskAssessment) ∧
    (data.decision_type = none →
      (immediateApply s data).decisionInfo = s.decisionInfo ∧
      (runOrchestration s data).decisionInfo = s.decisionInfo) ∧
    (data.stage = none → (runOrchestration s data).currentStage = "sanction") := by
  refine ⟨?_, ?_, ?_, ?_, ?_, ?_⟩ <;> intro h <;>
    simp [immediateApply, runOrchestration, orchSteps, orchStepApply,
      orchStepStage, orchFinalApply, applyRisk, applyDecision, strTruthy, h]

/-- Witness for C5 (amended) on a reply-only response. -/
theorem absent_fields_preserved_witness :
    (immediateApply initState bareResponse).currentStage = initState.currentStage ∧
    (immediateApply initState bareResponse).riskAssessment = initState.riskAssessment ∧
    (immediateApply initState bareResponse).decisionInfo = initState.decisionInfo :=
  ⟨(absent_fields_preserved initState bareResponse).1 rfl,
   ((absent_fields_preserved initState bareResponse).2.2.2.1 rfl).1,
   ((absent_fields_preserved initState bareResponse).2.2.2.2.1 rfl).1⟩

end LoanOps
